import Mathlib

/-!
Verification of the xiaozhi-go client against its specification.

The development shallowly embeds the Go sources:
* `audio/controller.go` — the half-duplex audio stream controller;
* `utils/reconnect.go` — the exponential reconnection backoff;
* the `core` client (`Client`, `setState`, `Close`, the inbound message
  dispatcher `handleMessage` and its per-type handlers).

Mutex-protected Go methods are modelled as pure state-passing functions;
Go `time.Duration` values are modelled in whole seconds as `Nat`; a Go
panic (an unchecked type assertion that fails) is modelled as the
`Outcome.crashed` result.
-/

/-- Embeds the `controller` struct of `audio/controller.go`: the two
protected flags `isSending` and `isReceiving`. -/
structure Controller where
  isSending : Bool
  isReceiving : Bool
deriving DecidableEq

/-- Embeds `NewController`: both flags start false. -/
def Controller.new : Controller := ⟨false, false⟩

/-- Embeds `(*controller).StartSending`: fails (returning false, state
unchanged) when `isReceiving` is set, otherwise sets `isSending` and
returns true. -/
def Controller.StartSending (c : Controller) : Bool × Controller :=
  if c.isReceiving then (false, c)
  else (true, { c with isSending := true })

/-- Embeds `(*controller).StopSending`: unconditionally clears `isSending`. -/
def Controller.StopSending (c : Controller) : Controller :=
  { c with isSending := false }

/-- Embeds `(*controller).StartReceiving`: fails when `isSending` is set,
otherwise sets `isReceiving` and returns true. -/
def Controller.StartReceiving (c : Controller) : Bool × Controller :=
  if c.isSending then (false, c)
  else (true, { c with isReceiving := true })

/-- Embeds `(*controller).StopReceiving`: unconditionally clears `isReceiving`. -/
def Controller.StopReceiving (c : Controller) : Controller :=
  { c with isReceiving := false }

/-- Embeds `(*controller).IsSending`. -/
def Controller.IsSending (c : Controller) : Bool := c.isSending

/-- Embeds `(*controller).IsReceiving`. -/
def Controller.IsReceiving (c : Controller) : Bool := c.isReceiving

/-- The half-duplex invariant of the controller: the two flags are never
both set. -/
def halfDuplex (c : Controller) : Prop :=
  ¬(c.isSending = true ∧ c.isReceiving = true)

instance (c : Controller) : Decidable (halfDuplex c) := by
  unfold halfDuplex; infer_instance

/-- The six public operations of the controller, for reasoning about
arbitrary interleavings of calls (the mutex makes each call atomic, so an
interleaving is a sequence). -/
inductive CtrlOp
  | startSending
  | stopSending
  | startReceiving
  | stopReceiving
  | isSendingQ
  | isReceivingQ
deriving DecidableEq

/-- State effect of one controller operation (the query operations and a
failed start leave the state unchanged, as in the source). -/
def CtrlOp.apply : CtrlOp → Controller → Controller
  | .startSending, c => (c.StartSending).2
  | .stopSending, c => c.StopSending
  | .startReceiving, c => (c.StartReceiving).2
  | .stopReceiving, c => c.StopReceiving
  | .isSendingQ, c => c
  | .isReceivingQ, c => c

/-- Runs a sequence of controller operations from a state. -/
def runCtrlOps : List CtrlOp → Controller → Controller
  | [], c => c
  | op :: ops, c => runCtrlOps ops (op.apply c)

/-- Claim C1: half-duplex invariant of the audio stream controller. Every
one of the six operations preserves `halfDuplex`, and along every sequence
of operations from the initial state (both flags false) the flags are
never both true. -/
theorem halfDuplexInvariant :
    (∀ (op : CtrlOp) (c : Controller), halfDuplex c → halfDuplex (op.apply c)) ∧
    (∀ ops : List CtrlOp, halfDuplex (runCtrlOps ops Controller.new)) := by
  have hpres : ∀ (op : CtrlOp) (c : Controller), halfDuplex c → halfDuplex (op.apply c) := by
    intro op c h
    cases op <;> cases c with
    | mk s r => cases s <;> cases r <;> revert h <;> decide
  refine ⟨hpres, ?_⟩
  intro ops
  have hrun : ∀ (ops : List CtrlOp) (c : Controller), halfDuplex c →
      halfDuplex (runCtrlOps ops c) := by
    intro ops
    induction ops with
    | nil => intro c h; exact h
    | cons op ops ih => intro c h; exact ih (op.apply c) (hpres op c h)
  exact hrun ops Controller.new (by decide)

/-- Witness for C1 at concrete inputs. -/
theorem halfDuplexInvariant_witness :
    halfDuplex (CtrlOp.apply CtrlOp.startSending Controller.new) ∧
    halfDuplex (runCtrlOps [CtrlOp.startSending, CtrlOp.startReceiving,
      CtrlOp.stopSending, CtrlOp.startReceiving] Controller.new) :=
  ⟨halfDuplexInvariant.1 CtrlOp.startSending Controller.new (by decide),
   halfDuplexInvariant.2 [CtrlOp.startSending, CtrlOp.startReceiving,
      CtrlOp.stopSending, CtrlOp.startReceiving]⟩

/-- Claim C2: start-call contract. `StartSending` succeeds (returns true,
sets only `isSending`) exactly when `isReceiving` is false, and otherwise
returns false leaving the state unchanged; `StartReceiving` is symmetric. -/
theorem startCallContract (c : Controller) :
    (c.isReceiving = false → c.StartSending = (true, { c with isSending := true })) ∧
    (c.isReceiving = true → c.StartSending = (false, c)) ∧
    (c.isSending = false → c.StartReceiving = (true, { c with isReceiving := true })) ∧
    (c.isSending = true → c.StartReceiving = (false, c)) := by
  cases c with
  | mk s r => cases s <;> cases r <;> decide

/-- Witness for C2 at concrete inputs. -/
theorem startCallContract_witness :
    Controller.StartSending ⟨false, false⟩ = (true, ⟨true, false⟩) ∧
    Controller.StartSending ⟨false, true⟩ = (false, ⟨false, true⟩) ∧
    Controller.StartReceiving ⟨false, false⟩ = (true, ⟨false, true⟩) ∧
    Controller.StartReceiving ⟨true, false⟩ = (false, ⟨true, false⟩) :=
  ⟨(startCallContract ⟨false, false⟩).1 rfl,
   (startCallContract ⟨false, true⟩).2.1 rfl,
   (startCallContract ⟨false, false⟩).2.2.1 rfl,
   (startCallContract ⟨true, false⟩).2.2.2 rfl⟩

/-- Claim C9: idempotent stop. Stopping when already stopped changes
nothing, each stop leaves the opposite flag alone, and each stop operation
composed with itself equals a single application. -/
theorem stopIdempotent (c : Controller) :
    (c.isSending = false → c.StopSending = c) ∧
    (c.isReceiving = false → c.StopReceiving = c) ∧
    c.StopSending.StopSending = c.StopSending ∧
    c.StopReceiving.StopReceiving = c.StopReceiving ∧
    (c.StopSending).isReceiving = c.isReceiving ∧
    (c.StopReceiving).isSending = c.isSending := by
  cases c with
  | mk s r => cases s <;> cases r <;> decide

/-- Witness for C9 at a concrete input. -/
theorem stopIdempotent_witness :
    Controller.StopSending ⟨false, true⟩ = ⟨false, true⟩ ∧
    Controller.StopReceiving ⟨true, false⟩ = ⟨true, false⟩ :=
  ⟨(stopIdempotent ⟨false, true⟩).1 rfl,
   (stopIdempotent ⟨true, false⟩).2.1 rfl⟩

/-- Embeds the `ExponentialBackoff` struct of `utils/reconnect.go`; the
`time.Duration` fields are modelled in whole seconds. -/
structure ExponentialBackoff where
  currentDelay : Nat
  maxDelay : Nat
deriving DecidableEq

/-- Embeds `NewExponentialBackoff`: floor 1 second, ceiling 30 seconds. -/
def NewExponentialBackoff : ExponentialBackoff :=
  { currentDelay := 1, maxDelay := 30 }

/-- Embeds `(*ExponentialBackoff).NextDelay`: returns the current delay,
then doubles it, clamping at `maxDelay`. -/
def ExponentialBackoff.NextDelay (e : ExponentialBackoff) : Nat × ExponentialBackoff :=
  let delay := e.currentDelay
  let doubled := e.currentDelay * 2
  let next := if doubled > e.maxDelay then e.maxDelay else doubled
  (delay, { e with currentDelay := next })

/-- Modelled from the spec: the `ReconnectStrategy` interface in
`utils/reconnect.go` declares `Reset()`, but the `ExponentialBackoff`
implementation of `Reset` is not present under the sources; per the spec,
`reset()` restores the floor delay (1 second). -/
def ExponentialBackoff.Reset (e : ExponentialBackoff) : ExponentialBackoff :=
  { e with currentDelay := 1 }

/-- The list of delays returned by n successive `NextDelay` calls,
together with the final backoff state. -/
def runDelays : Nat → ExponentialBackoff → List Nat × ExponentialBackoff
  | 0, e => ([], e)
  | n + 1, e =>
    let p := e.NextDelay
    let q := runDelays n p.2
    (p.1 :: q.1, q.2)

theorem nextDelay_state_max (e : ExponentialBackoff) :
    (e.NextDelay).2.maxDelay = e.maxDelay := rfl

theorem nextDelay_state_le (e : ExponentialBackoff) (h : e.currentDelay ≤ e.maxDelay) :
    e.currentDelay ≤ (e.NextDelay).2.currentDelay ∧
    (e.NextDelay).2.currentDelay ≤ e.maxDelay := by
  show e.currentDelay ≤ (if e.currentDelay * 2 > e.maxDelay then e.maxDelay else e.currentDelay * 2) ∧
    (if e.currentDelay * 2 > e.maxDelay then e.maxDelay else e.currentDelay * 2) ≤ e.maxDelay
  by_cases hc : e.currentDelay * 2 > e.maxDelay
  · simp only [if_pos hc]
    exact ⟨h, Nat.le_refl _⟩
  · simp only [if_neg hc]
    exact ⟨Nat.le_mul_of_pos_right _ (by norm_num), Nat.le_of_not_lt hc⟩

theorem runDelays_spec (n : Nat) :
    ∀ e : ExponentialBackoff, e.currentDelay ≤ e.maxDelay →
      List.Chain' (fun a b => a ≤ b) (runDelays n e).1 ∧
      (∀ d ∈ (runDelays n e).1, d ≤ e.maxDelay) ∧
      (runDelays n e).1.head? = (if n = 0 then none else some e.currentDelay) := by
  induction n with
  | zero =>
    intro e _
    exact ⟨List.chain'_nil, (by intro d hd; cases hd), rfl⟩
  | succ n ih =>
    intro e he
    have hstep := nextDelay_state_le e he
    have hmax : (e.NextDelay).2.maxDelay = e.maxDelay := rfl
    have ihe := ih (e.NextDelay).2 (by rw [hmax]; exact hstep.2)
    have hrun : runDelays (n + 1) e =
        ((e.NextDelay).1 :: (runDelays n (e.NextDelay).2).1,
          (runDelays n (e.NextDelay).2).2) := rfl
    have hfst : (runDelays (n + 1) e).1 =
        (e.NextDelay).1 :: (runDelays n (e.NextDelay).2).1 := by rw [hrun]
    have hret : (e.NextDelay).1 = e.currentDelay := rfl
    refine ⟨?_, ?_, ?_⟩
    · rw [hfst]
      rw [List.chain'_cons']
      refine ⟨?_, ihe.1⟩
      intro y hy
      rw [ihe.2.2] at hy
      by_cases hn : n = 0
      · rw [if_pos hn] at hy; cases hy
      · rw [if_neg hn] at hy
        have : y = (e.NextDelay).2.currentDelay := by
          cases hy; rfl
        rw [this, hret]
        exact hstep.1
    · rw [hfst]
      intro d hd
      rcases List.mem_cons.mp hd with h1 | h2
      · rw [h1, hret]; exact he
      · have := ihe.2.1 d h2
        rw [hmax] at this
        exact this
    · rw [hfst]
      simp only [List.head?_cons, hret]
      rfl

/-- Claim C6: backoff monotonicity and cap. For a freshly constructed
policy, n successive `NextDelay` calls yield a non-decreasing sequence
whose first element is the floor (1 second) and whose every element is at
most the ceiling (30 seconds). -/
theorem backoffMonotoneCapped (n : Nat) :
    List.Chain' (fun a b => a ≤ b) (runDelays n NewExponentialBackoff).1 ∧
    (∀ d ∈ (runDelays n NewExponentialBackoff).1, d ≤ 30) ∧
    (0 < n → (runDelays n NewExponentialBackoff).1.head? = some 1) := by
  have h := runDelays_spec n NewExponentialBackoff (by decide)
  refine ⟨h.1, h.2.1, ?_⟩
  intro hn
  rw [h.2.2, if_neg (Nat.pos_iff_ne_zero.mp hn)]
  rfl

/-- Witness for C6 at n = 7 (past the point where the cap binds). -/
theorem backoffMonotoneCapped_witness :
    List.Chain' (fun a b => a ≤ b) (runDelays 7 NewExponentialBackoff).1 ∧
    8 ∈ (runDelays 7 NewExponentialBackoff).1 ∧
    8 ≤ 30 ∧
    (runDelays 7 NewExponentialBackoff).1.head? = some 1 :=
  ⟨(backoffMonotoneCapped 7).1,
   by decide,
   (backoffMonotoneCapped 7).2.1 8 (by decide),
   (backoffMonotoneCapped 7).2.2 (by decide)⟩

/-- Claim C7: reset restores the floor. After any number of `NextDelay`
calls on a fresh policy, one `Reset` makes the next `NextDelay` return
exactly the floor value of 1 second. -/
theorem resetRestoresFloor (n : Nat) :
    ((((runDelays n NewExponentialBackoff).2).Reset).NextDelay).1 = 1 := rfl

/-- Embeds the `DeviceState` string constants of the core client. -/
inductive DeviceState
  | unknown
  | connecting
  | idle
  | listening
  | speaking
  | disconnected
deriving DecidableEq

/-- A JSON value as far as the dispatcher inspects one: the handlers only
ever assert fields to `string`, so any non-string value is `other`. -/
inductive JsonValue
  | str (s : String)
  | other
deriving DecidableEq

/-- An inbound text message after `json.Unmarshal` into
`map\x7bstring]interface\x7b}`: a finite key-value map, modelled as an
association list (Go map keys are unique; first match wins). -/
def Msg : Type := List (String × JsonValue)

/-- Map lookup, `msg[key]` returning `none` for an absent key. -/
def lookupField : Msg → String → Option JsonValue
  | [], _ => none
  | (k, v) :: rest, key => if k = key then some v else lookupField rest key

/-- The checked Go type assertion `msg[key].(string)` with the `, ok`
form: `some s` exactly when the key is present with a string value. -/
def getString (msg : Msg) (key : String) : Option String :=
  match lookupField msg key with
  | some (JsonValue.str s) => some s
  | _ => none

/-- The fields of the core `Client` struct that the dispatcher and state
machine read or write: device state, session identifier, the audio
controller, and whether a transport is attached (`c.transport != nil`). -/
structure Client where
  state : DeviceState
  sessionID : String
  audioCtrl : Controller
  transport : Bool
deriving DecidableEq

/-- Embeds the `Client` zero/initial values set up by `NewClient`:
state `unknown`, empty session, fresh controller, no transport yet. -/
def NewClientModel : Client :=
  { state := DeviceState.unknown
    sessionID := ""
    audioCtrl := Controller.new
    transport := false }

/-- Result of running a handler: normal return, an error return (Go
handlers return `error`; state changes made before the error stick), or a
Go panic that kills the dispatch goroutine. -/
inductive Outcome
  | ok (c : Client)
  | error (msg : String) (c : Client)
  | crashed
deriving DecidableEq

def Outcome.isOk : Outcome → Bool
  | .ok _ => true
  | _ => false

/-- Embeds `(*Client).setState`: when the state actually changes, entering
`speaking` stops audio sending and entering `listening` attempts to start
it (a failure is only logged); a self-transition does nothing. -/
def setState (c : Client) (newState : DeviceState) : Client :=
  if c.state = newState then c
  else
    let c1 :=
      match newState with
      | DeviceState.speaking => { c with audioCtrl := c.audioCtrl.StopSending }
      | DeviceState.listening => { c with audioCtrl := (c.audioCtrl.StartSending).2 }
      | _ => c
    { c1 with state := newState }

/-- Embeds `(*Client).BeginAudioStream`: `StartSending`, with an error
when the controller refuses (currently receiving). Returns the updated
client and the error, if any. -/
def beginAudioStream (c : Client) : Client × Option String :=
  match c.audioCtrl.StartSending with
  | (true, ctrl) => ({ c with audioCtrl := ctrl }, none)
  | (false, ctrl) => ({ c with audioCtrl := ctrl },
      some "cannot begin stream: currently receiving")

/-- Embeds `(*Client).EndAudioStream`: `StopSending` on the controller. -/
def endAudioStream (c : Client) : Client :=
  { c with audioCtrl := c.audioCtrl.StopSending }

/-- Embeds `(*Client).SendStartListening`: errors unless the state is
`idle` or `connecting`; then sends the listen JSON (which fails exactly
when no transport is attached) and transitions to `listening`. -/
def sendStartListening (c : Client) : Client × Option String :=
  if c.state ≠ DeviceState.idle ∧ c.state ≠ DeviceState.connecting then
    (c, some "cannot start listening from state")
  else if c.transport = false then
    (c, some "not connected to server")
  else
    (setState c DeviceState.listening, none)

/-- Embeds `(*Client).Close`: stops audio capture and the transport, then
sets the state to `disconnected` (no other client field is written). -/
def Close (c : Client) : Client :=
  setState c DeviceState.disconnected

/-- Embeds `(*Client).handleHelloResponse`. The source reads
`msg["session_id"].(string)` with an UNCHECKED type assertion, so an
absent or non-string `session_id` panics; otherwise the session id is
recorded, `SendStartListening` runs (its error only logged) and
`BeginAudioStream` runs (its error returned). -/
def handleHelloResponse (c : Client) (msg : Msg) : Outcome :=
  match lookupField msg "session_id" with
  | some (JsonValue.str s) =>
    let c1 := { c with sessionID := s }
    let c2 := (sendStartListening c1).1
    match beginAudioStream c2 with
    | (c3, none) => Outcome.ok c3
    | (c3, some e) => Outcome.error e c3
  | _ => Outcome.crashed

/-- Embeds `(*Client).handleListenMessage`: requires a string `state`
field; a `detect`/other state only logs. -/
def handleListenMessage (c : Client) (msg : Msg) : Outcome :=
  match getString msg "state" with
  | none => Outcome.error "listen state is missing" c
  | some _ => Outcome.ok c

/-- Embeds `(*Client).handleTTSMessage`: requires a string `state`;
`start` ends the audio send stream, moves a listening client to
`speaking`, starts receiving (error if the controller refuses) and sets
`speaking`; `stop` stops receiving, goes `idle`, restarts listening and
the audio stream; sentence events and unknown states only log. -/
def handleTTSMessage (c : Client) (msg : Msg) : Outcome :=
  match getString msg "state" with
  | none => Outcome.error "missing state field" c
  | some st =>
    if st = "start" then
      let c1 := endAudioStream c
      let c2 := if c1.state = DeviceState.listening
                then setState c1 DeviceState.speaking else c1
      match c2.audioCtrl.StartReceiving with
      | (false, ctrl) =>
        Outcome.error "cannot receive while sending" { c2 with audioCtrl := ctrl }
      | (true, ctrl) =>
        Outcome.ok (setState { c2 with audioCtrl := ctrl } DeviceState.speaking)
    else if st = "stop" then
      let c1 := { c with audioCtrl := c.audioCtrl.StopReceiving }
      let c2 := setState c1 DeviceState.idle
      let c3 := (sendStartListening c2).1
      match beginAudioStream c3 with
      | (c4, none) => Outcome.ok c4
      | (c4, some e) => Outcome.error e c4
    else Outcome.ok c

/-- Embeds `(*Client).handleSTTMessage`: requires string `session_id` and
`text` fields, then only logs. -/
def handleSTTMessage (c : Client) (msg : Msg) : Outcome :=
  match getString msg "session_id" with
  | none => Outcome.error "STT message missing session_id" c
  | some _ =>
    match getString msg "text" with
    | none => Outcome.error "STT message missing text" c
    | some _ => Outcome.ok c

/-- Embeds `(*Client).handleLLMMessage`: requires string `session_id` and
`text` fields; `emotion` is optional; then only logs. -/
def handleLLMMessage (c : Client) (msg : Msg) : Outcome :=
  match getString msg "session_id" with
  | none => Outcome.error "LLM message missing session_id" c
  | some _ =>
    match getString msg "text" with
    | none => Outcome.error "LLM message missing text" c
    | some _ => Outcome.ok c

/-- Embeds `(*Client).handleAbortMessage`: `reason` is optional; the
client goes `idle`. -/
def handleAbortMessage (c : Client) (_msg : Msg) : Outcome :=
  Outcome.ok (setState c DeviceState.idle)

/-- Embeds `(*Client).handleErrorMessage`: requires string `message` and
`session_id` fields, then returns the wrapped session error. -/
def handleErrorMessage (c : Client) (msg : Msg) : Outcome :=
  match getString msg "message" with
  | none => Outcome.error "error message is missing 'message' field" c
  | some _ =>
    match getString msg "session_id" with
    | none => Outcome.error "error message is missing 'session_id' field" c
    | some _ => Outcome.error "session error" c

/-- Embeds `(*Client).handleMessage`: dispatch on the string `type` field;
a missing or non-string `type` is an error, an unknown type only logs. -/
def handleMessage (c : Client) (msg : Msg) : Outcome :=
  match getString msg "type" with
  | none => Outcome.error "message type is missing" c
  | some t =>
    if t = "hello" then handleHelloResponse c msg
    else if t = "listen" then handleListenMessage c msg
    else if t = "tts" then handleTTSMessage c msg
    else if t = "stt" then handleSTTMessage c msg
    else if t = "llm" then handleLLMMessage c msg
    else if t = "abort" then handleAbortMessage c msg
    else if t = "error" then handleErrorMessage c msg
    else Outcome.ok c

/-- Embeds the dispatch loop of `(*Client).messageHandler`: a handler
error is logged and the loop continues with the updated client; a panic
kills the goroutine, so no later message is processed. -/
def messageLoop : Client → List Msg → Outcome
  | c, [] => Outcome.ok c
  | c, m :: rest =>
    match handleMessage c m with
    | Outcome.ok c1 => messageLoop c1 rest
    | Outcome.error _ c1 => messageLoop c1 rest
    | Outcome.crashed => Outcome.crashed

/-- The inbound message for a TTS start event: parsed
form of the JSON text with type tts and state start. -/
def ttsStartMsg : Msg :=
  [("type", JsonValue.str "tts"), ("state", JsonValue.str "start")]

/-- Claim C3: the spec says every recognized message type with a missing
required field yields a local logged error and the loop continues. The
handlers for `tts`, `listen`, `stt`, `llm` and `error` do return local
errors and the loop continues past them; but `handleHelloResponse` reads
`session_id` through an unchecked type assertion, so a `hello` without
`session_id` panics and kills the dispatch loop — the code contradicts
the claimed no-crash behaviour. -/
theorem missingFieldDispatch :
    handleMessage NewClientModel [("type", JsonValue.str "hello")] = Outcome.crashed ∧
    messageLoop NewClientModel [[("type", JsonValue.str "hello")],
      [("type", JsonValue.str "abort")]] = Outcome.crashed ∧
    handleMessage NewClientModel [("type", JsonValue.str "tts")] =
      Outcome.error "missing state field" NewClientModel ∧
    handleMessage NewClientModel [("type", JsonValue.str "listen")] =
      Outcome.error "listen state is missing" NewClientModel ∧
    handleMessage NewClientModel
        [("type", JsonValue.str "stt"), ("session_id", JsonValue.str "s1")] =
      Outcome.error "STT message missing text" NewClientModel ∧
    handleMessage NewClientModel
        [("type", JsonValue.str "llm"), ("session_id", JsonValue.str "s1")] =
      Outcome.error "LLM message missing text" NewClientModel ∧
    handleMessage NewClientModel [("type", JsonValue.str "error")] =
      Outcome.error "error message is missing 'message' field" NewClientModel ∧
    messageLoop NewClientModel [[("type", JsonValue.str "tts")],
      [("type", JsonValue.str "listen")]] = Outcome.ok NewClientModel :=
  ⟨rfl, rfl, rfl, rfl, rfl, rfl, rfl, rfl⟩

/-- Claim C4: TTS-start transition. Handling a tts/start message from any
client state succeeds and leaves the controller not sending, the device
state `speaking`, and the controller receiving (the handler forces the
send stream off through the controller before flipping the state). -/
theorem ttsStartTransition (c : Client) :
    ∃ c2, handleMessage c ttsStartMsg = Outcome.ok c2 ∧
      c2.audioCtrl.IsSending = false ∧
      c2.state = DeviceState.speaking ∧
      c2.audioCtrl.IsReceiving = true := by
  cases c with
  | mk st sid ctrl tr =>
    cases st <;> exact ⟨_, rfl, rfl, rfl, rfl⟩

/-- Counterexample to claim C5 as stated: closing a connected client with
session id "abc123" leaves the session id "abc123", not the empty string,
even though the state does become `disconnected`. -/
theorem closeKeepsSessionID_cex :
    (Close { state := DeviceState.idle, sessionID := "abc123",
             audioCtrl := Controller.new, transport := true }).sessionID = "abc123" ∧
    (Close { state := DeviceState.idle, sessionID := "abc123",
             audioCtrl := Controller.new, transport := true }).state =
      DeviceState.disconnected ∧
    "abc123" ≠ "" :=
  ⟨rfl, rfl, by decide⟩

/-- Claim C5 (amended): the session id starts empty and is set only when a
hello response is recorded; `Close` sets the state to `disconnected` but
leaves the session id unchanged (it is never reset on disconnect). -/
theorem sessionIDLifecycle (c : Client) :
    NewClientModel.sessionID = "" ∧
    (Close c).sessionID = c.sessionID ∧
    (Close c).state = DeviceState.disconnected := by
  cases c with
  | mk st sid ctrl tr =>
    cases st <;> exact ⟨rfl, rfl, rfl⟩

/-- Counterexample to claim C8 as stated: dispatching the empty object
message returns a "message type is missing" error, not an error-free
return (the state is nevertheless unchanged). -/
theorem emptyObjectReturnsError_cex :
    (handleMessage NewClientModel []).isOk = false ∧
    handleMessage NewClientModel [] =
      Outcome.error "message type is missing" NewClientModel :=
  ⟨rfl, rfl⟩

/-- Claim C8 (amended): dispatching the empty object message (no `type`
field) returns a local "message type is missing" error — which the
dispatch loop only logs — and changes no client state, controller flag or
session field. -/
theorem emptyObjectNoStateChange (c : Client) :
    handleMessage c [] = Outcome.error "message type is missing" c := rfl

/-- Claim C10: a self-transition of `setState` is a pure no-op — when the
requested state equals the current one, no entry side effect runs and the
client (state, session, controller flags) is returned unchanged. -/
theorem setStateSelfNoop (c : Client) (s : DeviceState) (h : c.state = s) :
    setState c s = c := by
  subst h
  simp [setState]

/-- Witness for C10 at a concrete input. -/
theorem setStateSelfNoop_witness :
    setState NewClientModel DeviceState.unknown = NewClientModel :=
  setStateSelfNoop NewClientModel DeviceState.unknown rfl
